import Mathlib

/-!
Shallow embedding of the Traffic-1- repository: the vehicle-group traffic
simulation (backend/src/speedPrediction.js) and the Express/WebSocket backend
(backend/src/index.js). Wall-clock time, Math.random samples and generated ids
are threaded explicitly as oracle inputs; JS numbers are modelled as rationals;
JS objects used as string-keyed maps are modelled as association lists.
-/

namespace Traffic

/-! ## JS numeric helpers -/

/-- Math.round: floor of x + 1/2 (JS rounds halves toward positive infinity). -/
def jsRound (q : ℚ) : ℤ := ⌊q + 1/2⌋

/-- Number(x.toFixed(k)): x rounded to k decimal places. -/
def toFixed (k : ℕ) (q : ℚ) : ℚ := ((jsRound (q * (10 : ℚ) ^ k) : ℤ) : ℚ) / (10 : ℚ) ^ k

/-- JS (q || 0) on a number: 0 stays 0, every other value is itself. -/
def jsOrZero (q : ℚ) : ℚ := if q = 0 then 0 else q

/-! ## Simulation constants (speedPrediction.js) -/

inductive Direction where
  | North
  | South
  | East
  | West
deriving DecidableEq

/-- The iteration order used by the source: forEach over the four names. -/
def Direction.all : List Direction := [.North, .South, .East, .West]

def Direction.name : Direction → String
  | .North => "North"
  | .South => "South"
  | .East => "East"
  | .West => "West"

/-- Parses a direction name, the key-membership test on the four-key objects. -/
def parseDirection (s : String) : Option Direction :=
  if s = "North" then some .North
  else if s = "South" then some .South
  else if s = "East" then some .East
  else if s = "West" then some .West
  else none

/-- The own property names of Object.prototype: a (!== undefined) lookup on an
object literal finds all of them through the prototype chain. -/
def objectPrototypeProps : List String :=
  ["constructor", "hasOwnProperty", "isPrototypeOf", "propertyIsEnumerable",
   "toLocaleString", "toString", "valueOf", "__defineGetter__", "__defineSetter__",
   "__lookupGetter__", "__lookupSetter__", "__proto__"]

/-! ## Association-list operations modelling JS Map and plain-object maps -/

abbrev ConnId := String

/-- Lookup of the first entry with the given key (Map.get / property read). -/
def getKey {α : Type} : List (String × α) → String → Option α
  | [], _ => none
  | (k, v) :: rest, key => if k = key then some v else getKey rest key

/-- Map.set / property write: replace in place, else append. -/
def setKey {α : Type} : List (String × α) → String → α → List (String × α)
  | [], key, v => [(key, v)]
  | (k, w) :: rest, key, v =>
      if k = key then (key, v) :: rest else (k, w) :: setKey rest key v

/-- Map.delete. -/
def eraseKey {α : Type} : List (String × α) → String → List (String × α)
  | [], _ => []
  | (k, v) :: rest, key =>
      if k = key then eraseKey rest key else (k, v) :: eraseKey rest key

/-- messages.slice(-50): the last n elements. -/
def lastN {α : Type} (n : ℕ) (l : List α) : List α := l.drop (l.length - n)

def DISTANCE_TO_TRAVEL : ℚ := 3/2

def INITIAL_SPEEDS : Direction → ℚ
  | .North => 60
  | .South => 60
  | .East => 50
  | .West => 50

/-- Default densities (vehicles per km), the initial value of the mutable DENSITIES object. -/
def defaultDensities : Direction → ℚ
  | .North => 20
  | .South => 20
  | .East => 15
  | .West => 15

def DIRECTION_FACTORS : Direction → ℚ
  | .North => 1
  | .South => 9/10
  | .East => 11/10
  | .West => 19/20

/-- getRandomVariation with the sampled variation r (Math.random()*10 - 5) explicit. -/
def getRandomVariation (r baseSpeed : ℚ) : ℚ := max 0 (baseSpeed + r)

/-- getTimeFactor with the wall-clock hour explicit. -/
def getTimeFactor (hour : ℕ) : ℚ :=
  if 7 ≤ hour ∧ hour ≤ 9 then 7/10
  else if 16 ≤ hour ∧ hour ≤ 18 then 3/5
  else if 22 ≤ hour ∨ hour ≤ 5 then 9/10
  else 4/5

/-! ## VehicleGroup -/

structure VehicleGroup where
  direction : Direction
  isSecondGroup : Bool
  distanceTraveled : ℚ
  hasReached : Bool
  speed : ℚ
  timeElapsed : ℚ
  maxSpeed : ℚ
  volume : ℤ

/-- The VehicleGroup constructor. -/
def VehicleGroup.init (d : Direction) (isSecond : Bool) : VehicleGroup :=
  { direction := d
    isSecondGroup := isSecond
    distanceTraveled := 0
    hasReached := false
    speed := if isSecond then INITIAL_SPEEDS d / 2 else INITIAL_SPEEDS d
    timeElapsed := 0
    maxSpeed := INITIAL_SPEEDS d
    volume := 0 }

/-- VehicleGroup.updateSpeed; densities is the current DENSITIES object, hour the
wall-clock hour, r the Math.random variation sample. -/
def VehicleGroup.updateSpeed (densities : Direction → ℚ) (hour : ℕ) (r : ℚ)
    (g : VehicleGroup) : VehicleGroup :=
  let timeFactor := getTimeFactor hour
  let directionFactor := DIRECTION_FACTORS g.direction
  let base1 := g.maxSpeed * timeFactor * directionFactor
  let density := max 0 (jsOrZero (densities g.direction))
  let densityNormalized := density / 50
  let densityAdjustment := max (2/5) (1 - densityNormalized)
  let base2 := base1 * densityAdjustment
  let vol := jsOrZero ((g.volume : ℚ))
  let volAdjustment := 1 - min (2/5) (vol / 100)
  let base3 := base2 * volAdjustment
  let base4 := if g.isSecondGroup && !g.hasReached then base3 / 2 else base3
  let s1 : ℚ := min ((jsRound (getRandomVariation r base4) : ℤ) : ℚ) g.maxSpeed
  let s2 : ℚ := if g.hasReached && g.isSecondGroup then min (s1 * 2) g.maxSpeed else s1
  { g with speed := s2 }

/-- VehicleGroup.update(deltaTime). -/
def VehicleGroup.update (densities : Direction → ℚ) (hour : ℕ) (r : ℚ) (dt : ℚ)
    (g : VehicleGroup) : VehicleGroup :=
  if g.hasReached && !g.isSecondGroup then g
  else
    let g1 := g.updateSpeed densities hour r
    let g2 := { g1 with
      timeElapsed := g1.timeElapsed + dt
      distanceTraveled := g1.distanceTraveled + g1.speed / 3600 * dt }
    if DISTANCE_TO_TRAVEL ≤ g2.distanceTraveled then { g2 with hasReached := true } else g2

structure GroupStatus where
  direction : String
  currentSpeed : ℚ
  volume : ℤ
  distanceTraveled : ℚ
  timeElapsed : ℚ
  hasReached : Bool
  estimatedTimeToReach : ℚ
deriving DecidableEq

/-- VehicleGroup.getStatus. -/
def VehicleGroup.getStatus (g : VehicleGroup) : GroupStatus :=
  { direction := g.direction.name
    currentSpeed := g.speed
    volume := g.volume
    distanceTraveled := toFixed 3 g.distanceTraveled
    timeElapsed := toFixed 1 g.timeElapsed
    hasReached := g.hasReached
    estimatedTimeToReach :=
      if g.hasReached then g.timeElapsed
      else toFixed 1 ((DISTANCE_TO_TRAVEL - g.distanceTraveled) / (g.speed / 3600)) }

/-! ## TrafficSimulation -/

structure Volumes where
  total : ℤ
  first : ℤ
  second : ℤ
deriving DecidableEq

structure DirStatus where
  firstGroup : GroupStatus
  secondGroup : GroupStatus
  maxSpeed : ℚ
  density : ℚ
  volumes : Volumes
deriving DecidableEq

/-- The per-direction status object built by TrafficSimulation.getStatus, keyed
by direction name in forEach order. -/
abbrev Status := List (String × DirStatus)

/-- The state of the speedPrediction.js module: the mutable DENSITIES object
together with the single TrafficSimulation instance. The four direction keys of
DENSITIES live in densities; extraProps holds the junk own properties that a
setDensity call on an inherited Object.prototype name creates on the object. -/
structure SimState where
  densities : Direction → ℚ
  firstGroups : Direction → VehicleGroup
  secondGroups : Direction → VehicleGroup
  groupVolumes : Direction → Volumes
  extraProps : List (String × ℚ)

/-- The per-direction volume split computed by _recalculateVolumes. -/
def volumesFor (density : ℚ) : Volumes :=
  let totalVehicles : ℤ := max 1 (jsRound (jsOrZero density * DISTANCE_TO_TRAVEL))
  let firstCount : ℤ := ⌈(totalVehicles : ℚ) * (3/5)⌉
  let secondCount : ℤ := max 0 (totalVehicles - firstCount)
  { total := totalVehicles, first := firstCount, second := secondCount }

/-- TrafficSimulation._recalculateVolumes. -/
def recalculateVolumes (s : SimState) : SimState :=
  { s with
    groupVolumes := fun d => volumesFor (s.densities d)
    firstGroups := fun d => { s.firstGroups d with volume := (volumesFor (s.densities d)).first }
    secondGroups := fun d => { s.secondGroups d with volume := (volumesFor (s.densities d)).second } }

/-- The ambient inputs of one simulation update: wall-clock hour and one
Math.random variation sample per vehicle group (direction and second-group flag). -/
structure Env where
  hour : ℕ
  rnd : Direction → Bool → ℚ

/-- TrafficSimulation.update(deltaTime). -/
def SimState.update (env : Env) (dt : ℚ) (s : SimState) : SimState :=
  let s1 := recalculateVolumes s
  { s1 with
    firstGroups := fun d => (s1.firstGroups d).update s1.densities env.hour (env.rnd d false) dt
    secondGroups := fun d => (s1.secondGroups d).update s1.densities env.hour (env.rnd d true) dt }

/-- The per-direction entry built by TrafficSimulation.getStatus. -/
def dirInfo (s : SimState) (d : Direction) : DirStatus :=
  { firstGroup := (s.firstGroups d).getStatus
    secondGroup := (s.secondGroups d).getStatus
    maxSpeed := INITIAL_SPEEDS d
    density := jsOrZero (s.densities d)
    volumes := s.groupVolumes d }

/-- TrafficSimulation.getStatus. -/
def SimState.getStatus (s : SimState) : Status :=
  Direction.all.map fun d => (d.name, dirInfo s d)

/-- The TrafficSimulation constructor (with the initial DENSITIES). -/
def TrafficSimulation.init : SimState :=
  recalculateVolumes
    { densities := defaultDensities
      firstGroups := fun d => VehicleGroup.init d false
      secondGroups := fun d => VehicleGroup.init d true
      groupVolumes := fun _ => { total := 0, first := 0, second := 0 }
      extraProps := [] }

/-- getTrafficStatus: one update with deltaTime 1, then a snapshot; returns the
snapshot and the post-update module state. -/
def getTrafficStatus (env : Env) (s : SimState) : Status × SimState :=
  let s1 := s.update env 1
  (s1.getStatus, s1)

/-- setDensity(direction, densityValue); the value is None when Number() of the
supplied body field is NaN. The guard (DENSITIES[direction] !== undefined) finds
the four own direction keys, any junk own property added by an earlier call, and
every inherited Object.prototype name; an assignment under an inherited name
creates a junk own property, except __proto__, whose inherited setter ignores a
number, so the object is left as it is. -/
def setDensity (s : SimState) (dirStr : String) (v : Option ℚ) : SimState × Bool :=
  match parseDirection dirStr with
  | some d => ({ s with densities := Function.update s.densities d (max 0 (v.getD 0)) }, true)
  | none =>
      if getKey s.extraProps dirStr ≠ none ∨ dirStr ∈ objectPrototypeProps then
        (if dirStr = "__proto__" then s
         else { s with extraProps := setKey s.extraProps dirStr (max 0 (v.getD 0)) }, true)
      else (s, false)

/-- The simulation state reached after n successive getTrafficStatus calls. -/
def callsState (env : Env) : ℕ → SimState → SimState
  | 0, s => s
  | n + 1, s => callsState env n (getTrafficStatus env s).2

/-- A rational that is an integer. -/
def isInt (q : ℚ) : Prop := ∃ n : ℤ, q = (n : ℚ)

/-- The speed invariant of a vehicle group: an integer speed between 0 and the
maximum speed of the group. -/
def speedInv (g : VehicleGroup) : Prop :=
  isInt g.speed ∧ 0 ≤ g.speed ∧ g.speed ≤ g.maxSpeed

/-! ## Backend state (index.js) -/

structure LocationRec where
  latitude : ℚ
  longitude : ℚ
  accuracy : ℚ
  timestamp : ℚ
deriving DecidableEq

/-- One entry of the users map: the WebSocket connection, the user name and the
last known location. -/
structure UserInfo where
  ws : ConnId
  userName : String
  location : Option LocationRec
deriving DecidableEq

structure ChatMessage where
  id : String
  userId : String
  userName : String
  content : String
  timestamp : ℚ
  mtype : String
deriving DecidableEq

/-- The typed JSON payloads the backend sends over a WebSocket. -/
inductive ServerMsg where
  | userList (entries : List (String × String))
  | locations (entries : List (String × String × Option LocationRec))
  | connected (userId : String) (recent : List ChatMessage)
  | newMessage (m : ChatMessage)
  | emergencyAlert (m : ChatMessage) (traffic : Status)
  | trafficUpdate (traffic : Status)
deriving DecidableEq

/-- The mutable module state of index.js: users map, messages array, the cached
trafficData, the simulation module state, plus the set of open connections and
of per-connection traffic timers, and each connection assignedId variable. -/
structure ServerState where
  users : List (String × UserInfo)
  messages : List ChatMessage
  trafficData : Status
  sim : SimState
  conns : List ConnId
  timers : List ConnId
  assigned : List (ConnId × String)

def userListEntries (users : List (String × UserInfo)) : List (String × String) :=
  users.map fun p => (p.1, p.2.userName)

/-- broadcastUserList: one userList message per registered user. -/
def broadcastUserList (users : List (String × UserInfo)) : List (ConnId × ServerMsg) :=
  users.map fun p => (p.2.ws, ServerMsg.userList (userListEntries users))

def locationEntries (users : List (String × UserInfo)) :
    List (String × String × Option LocationRec) :=
  users.map fun p => (p.1, (p.2.userName, p.2.location))

/-- broadcastLocations: one locations message per registered user. -/
def broadcastLocations (users : List (String × UserInfo)) : List (ConnId × ServerMsg) :=
  users.map fun p => (p.2.ws, ServerMsg.locations (locationEntries users))

/-- The connections a list of outgoing messages is addressed to. -/
def recipients (out : List (ConnId × ServerMsg)) : List ConnId := out.map Prod.fst

/-- The ws fields of the registered users, in registry order. -/
def registeredConns (users : List (String × UserInfo)) : List ConnId :=
  users.map fun p => p.2.ws

/-- The WebSocket-side events of index.js: a new connection, the four message
types of the switch (connect, message, emergency, location), a connection
closing, and one firing of a connection periodic traffic timer. -/
inductive WsEvent where
  | openConn (conn : ConnId)
  | connect (conn : ConnId) (userName : String)
  | chatMessage (conn : ConnId) (userId : String) (content : String)
      (messageType : Option String)
  | emergency (conn : ConnId) (userId : String)
  | locationUpdate (conn : ConnId) (userId : String) (latitude longitude : ℚ)
      (accuracy : Option ℚ)
  | closeConn (conn : ConnId)
  | tick (conn : ConnId)

/-- The ambient inputs of one event: the generateId sample, new Date(), and the
simulation environment. -/
structure Oracle where
  newId : String
  now : ℚ
  env : Env

/-- One step of the backend event loop: the new state and the messages sent,
each tagged with the connection it goes to. -/
def step (o : Oracle) (s : ServerState) : WsEvent → ServerState × List (ConnId × ServerMsg)
  | .openConn conn =>
      ({ s with conns := s.conns ++ [conn], timers := s.timers ++ [conn] },
       [(conn, .trafficUpdate s.trafficData)])
  | .connect conn userName =>
      let userId := o.newId
      let users1 := setKey s.users userId { ws := conn, userName := userName, location := none }
      ({ s with users := users1, assigned := setKey s.assigned conn userId },
       (conn, .connected userId (lastN 50 s.messages)) ::
         (broadcastUserList users1 ++ broadcastLocations users1))
  | .chatMessage _conn userId content messageType =>
      match getKey s.users userId with
      | none => (s, [])
      | some sender =>
          let m : ChatMessage :=
            { id := o.newId, userId := userId, userName := sender.userName,
              content := content, timestamp := o.now,
              mtype := messageType.getD "normal" }
          ({ s with messages := s.messages ++ [m] },
           s.users.map fun p => (p.2.ws, .newMessage m))
  | .emergency _conn userId =>
      match getKey s.users userId with
      | none => (s, [])
      | some sender =>
          let m : ChatMessage :=
            { id := o.newId, userId := userId, userName := sender.userName,
              content := "🚨 EMERGENCY ALERT: Traffic stopped for emergency vehicle",
              timestamp := o.now, mtype := "emergency" }
          let r := getTrafficStatus o.env s.sim
          ({ s with messages := s.messages ++ [m], trafficData := r.1, sim := r.2 },
           s.users.map fun p => (p.2.ws, .emergencyAlert m r.1))
  | .locationUpdate _conn userId latitude longitude accuracy =>
      match getKey s.users userId with
      | none => (s, [])
      | some sender =>
          let loc : LocationRec :=
            { latitude := latitude, longitude := longitude,
              accuracy := accuracy.getD 0, timestamp := o.now }
          let users1 := setKey s.users userId { sender with location := some loc }
          ({ s with users := users1 }, broadcastLocations users1)
  | .closeConn conn =>
      let s1 := { s with conns := s.conns.filter (· ≠ conn) }
      match getKey s.assigned conn with
      | none => (s1, [])
      | some uid =>
          if (getKey s.users uid).isSome then
            let users1 := eraseKey s.users uid
            ({ s1 with users := users1 }, broadcastUserList users1)
          else (s1, [])
  | .tick conn =>
      let r := getTrafficStatus o.env s.sim
      ({ s with trafficData := r.1, sim := r.2 }, [(conn, .trafficUpdate r.1)])

/-! ## REST endpoints (index.js) -/

/-- POST /api/traffic/:direction/maxSpeed; returns the new state, the HTTP
status code, and the success flag of the JSON body. -/
def postMaxSpeed (s : ServerState) (dirStr : String) (v : ℚ) :
    ServerState × ℕ × Bool :=
  match getKey s.trafficData dirStr with
  | some info =>
      ({ s with trafficData := setKey s.trafficData dirStr { info with maxSpeed := v } },
       200, true)
  | none => (s, 400, false)

/-- POST /api/density/:direction; returns the new state, the HTTP status code,
and the success flag of the JSON body. -/
def postDensity (env : Env) (s : ServerState) (dirStr : String) (v : Option ℚ) :
    ServerState × ℕ × Bool :=
  let r := setDensity s.sim dirStr v
  if r.2 then
    let t := getTrafficStatus env r.1
    ({ s with sim := t.2, trafficData := t.1 }, 200, true)
  else (s, 400, false)

/-! ## The assistant endpoint (index.js, POST /api/assistant) -/

def ratStr (q : ℚ) : String := toString q

def intStr (n : ℤ) : String := toString n

/-- Array.prototype.join. -/
def joinSep (sep : String) : List String → String
  | [] => ""
  | [x] => x
  | x :: y :: xs => x ++ sep ++ joinSep sep (y :: xs)

/-- Tests whether pat occurs as a contiguous run inside l. -/
def hasSub : List Char → List Char → Bool
  | [], pat => pat.isEmpty
  | c :: rest, pat => pat.isPrefixOf (c :: rest) || hasSub rest pat

/-- String.prototype.includes as used on promptLower. -/
def strIncludes (s pat : String) : Bool := hasSub s.data pat.data

/-- The per-direction summary line pushed into lines. -/
def dirLine (dir : String) (info : DirStatus) : String :=
  dir ++ ": density " ++ ratStr info.density ++ " veh/km, total " ++
    intStr info.volumes.total ++ " vehicles; first ETA " ++
    ratStr info.firstGroup.estimatedTimeToReach ++ "s, second ETA " ++
    ratStr info.secondGroup.estimatedTimeToReach ++ "s"

/-- The suggestions pushed for one direction entry. -/
def dirSuggestions (dir : String) (info : DirStatus) : List String :=
  (if 40 ≤ info.density ∨ 70 ≤ info.volumes.total then
     [dir ++ ": high density — consider reducing inflow or rerouting traffic"]
   else if 25 ≤ info.density then
     [dir ++ ": moderate density — monitor speed and volumes"]
   else []) ++
  (if info.firstGroup.hasReached && !info.secondGroup.hasReached then
     [dir ++ ": first group has reached; you may accelerate the second group or clear the path"]
   else [])

def assistantLines (st : Status) : List String := st.map fun p => dirLine p.1 p.2

def assistantSuggestions (st : Status) : List String :=
  st.flatMap fun p => dirSuggestions p.1 p.2

/-- The trafficSummary string. -/
def trafficSummary (st : Status) : String :=
  let base := "Traffic summary:\n" ++ joinSep "\n" (assistantLines st)
  if assistantSuggestions st ≠ [] then
    base ++ "\n\nSuggestions:\n- " ++ joinSep "\n- " (assistantSuggestions st)
  else base

/-- The reply string built by the assistant endpoint; prompt is None when the
body carries no prompt field. -/
def buildReply (prompt : Option String) (st : Status) : String :=
  let ts := trafficSummary st
  let lines := assistantLines st
  let suggestions := assistantSuggestions st
  let p := prompt.getD ""
  if p.trim = "" then ts
  else
    let pl := p.toLower
    if strIncludes pl "congestion" || strIncludes pl "traffic jam" || strIncludes pl "blocked" then
      let highDensityDirs :=
        (st.filter fun q => 40 ≤ q.2.density).map fun q =>
          q.1 ++ " (" ++ ratStr q.2.density ++ " veh/km)"
      "🚨 Congestion Status:\n" ++
        (if highDensityDirs ≠ [] then
           "High congestion detected in: " ++ joinSep ", " highDensityDirs
         else "No major congestion detected.") ++ "\n\n" ++ ts
    else if strIncludes pl "eta" || strIncludes pl "time" || strIncludes pl "when" then
      "⏱️ Estimated Times:\n" ++ joinSep "\n" lines ++ "\n\n" ++
        (if suggestions ≠ [] then "Suggestions:\n- " ++ joinSep "\n- " suggestions else "")
    else if strIncludes pl "emergency" || strIncludes pl "accident" || strIncludes pl "incident" then
      "🚨 Emergency Protocol:\n- All lanes in affected directions have reduced speed\n- Emergency vehicles have priority\n- Please follow traffic control instructions\n\n" ++ ts
    else if strIncludes pl "density" || strIncludes pl "vehicles" || strIncludes pl "volume" then
      let totalVehicles := (st.map fun q => q.2.volumes.total).sum
      let avgDensity := toFixed 1 ((st.map fun q => q.2.density).sum / (st.length : ℚ))
      "📊 Traffic Volume Report:\nTotal Vehicles: " ++ intStr totalVehicles ++
        "\nAverage Density: " ++ ratStr avgDensity ++ " veh/km\n\n" ++ ts
    else if strIncludes pl "speed" || strIncludes pl "fast" || strIncludes pl "slow" then
      "🚗 Speed Advisory:\nMonitor speed limits based on current traffic conditions. Current status:\n" ++ ts
    else if strIncludes pl "route" || strIncludes pl "direction" || strIncludes pl "way" then
      let lessCongestedDirs := (st.filter fun q => q.2.density < 25).map fun q => q.1
      "🗺️ Route Recommendation:\n" ++
        (if lessCongestedDirs ≠ [] then
           "Recommended directions: " ++ joinSep ", " lessCongestedDirs
         else "Monitor all directions for best route.") ++ "\n\n" ++ ts
    else
      "📍 Traffic Information:\nYour Question: \"" ++ p ++ "\"\n\n" ++ ts

/-- The JSON body returned by POST /api/assistant. -/
structure AssistantResp where
  reply : String
  suggestions : List String
  statusSnapshot : Status

/-- POST /api/assistant: takes a fresh snapshot, builds reply and suggestions
from it, and returns it verbatim as statusSnapshot. -/
def postAssistant (env : Env) (s : ServerState) (prompt : Option String) :
    AssistantResp × ServerState :=
  let t := getTrafficStatus env s.sim
  ({ reply := buildReply prompt t.1
     suggestions := assistantSuggestions t.1
     statusSnapshot := t.1 },
   { s with sim := t.2 })

/-- Substring containment of small in big, stated over the character data. -/
def strContains (big small : String) : Prop :=
  ∃ pre post : List Char, big.data = pre ++ small.data ++ post

/-! ## Concrete states used by witnesses and counterexamples -/

/-- A fixed simulation environment: noon, all random variations zero. -/
def env0 : Env := { hour := 12, rnd := fun _ _ => 0 }

/-- The backend module state right after startup: empty registries and the
initial trafficData produced by the first getTrafficStatus call. -/
def mkInitialServer (env : Env) : ServerState :=
  let r := getTrafficStatus env TrafficSimulation.init
  { users := [], messages := [], trafficData := r.1, sim := r.2,
    conns := [], timers := [], assigned := [] }

/-- A server state with two open connections of which only c1 has registered. -/
def halfRegisteredState : ServerState :=
  { users := [("u1", { ws := "c1", userName := "alice", location := none })]
    messages := []
    trafficData := []
    sim := TrafficSimulation.init
    conns := ["c1", "c2"]
    timers := ["c1", "c2"]
    assigned := [("c1", "u1")] }

/-- A fixed oracle for concrete runs. -/
def oracle0 : Oracle := { newId := "m1", now := 0, env := env0 }

/-- A small DirStatus literal used to exercise the maxSpeed endpoint. -/
def dirStatus0 : DirStatus :=
  { firstGroup := (VehicleGroup.init .North false).getStatus
    secondGroup := (VehicleGroup.init .North true).getStatus
    maxSpeed := 60
    density := 20
    volumes := { total := 30, first := 18, second := 12 } }

/-- A tiny server state whose trafficData cache has a single North entry. -/
def smallServer : ServerState :=
  { users := [], messages := [], trafficData := [("North", dirStatus0)],
    sim := TrafficSimulation.init, conns := [], timers := [], assigned := [] }

/-! ## Helper lemmas -/

section

attribute [local semireducible] Rat.add Rat.mul Rat.inv Rat.sub Rat.ofScientific

theorem jsOrZero_eq (q : ℚ) : jsOrZero q = q := by
  unfold jsOrZero
  split <;> simp_all

theorem jsRound_nonneg {q : ℚ} (h : 0 ≤ q) : 0 ≤ jsRound q := by
  unfold jsRound
  exact Int.le_floor.mpr (by push_cast; linarith)

theorem getRandomVariation_nonneg (r b : ℚ) : 0 ≤ getRandomVariation r b :=
  le_max_left 0 (b + r)

theorem updateSpeed_hasReached (densities : Direction → ℚ) (hour : ℕ) (r : ℚ)
    (g : VehicleGroup) : (g.updateSpeed densities hour r).hasReached = g.hasReached := rfl

theorem updateSpeed_distance (densities : Direction → ℚ) (hour : ℕ) (r : ℚ)
    (g : VehicleGroup) :
    (g.updateSpeed densities hour r).distanceTraveled = g.distanceTraveled := rfl

theorem updateSpeed_maxSpeed (densities : Direction → ℚ) (hour : ℕ) (r : ℚ)
    (g : VehicleGroup) : (g.updateSpeed densities hour r).maxSpeed = g.maxSpeed := rfl

theorem updateSpeed_speed (densities : Direction → ℚ) (hour : ℕ) (r : ℚ)
    (g : VehicleGroup) :
    ∃ x : ℚ, 0 ≤ x ∧
      (g.updateSpeed densities hour r).speed =
        (if g.hasReached && g.isSecondGroup
         then min (min ((jsRound x : ℤ) : ℚ) g.maxSpeed * 2) g.maxSpeed
         else min ((jsRound x : ℤ) : ℚ) g.maxSpeed) :=
  ⟨_, getRandomVariation_nonneg r _, rfl⟩

theorem updateSpeed_speed_bounds (densities : Direction → ℚ) (hour : ℕ) (r : ℚ)
    (g : VehicleGroup) (h : 0 ≤ g.maxSpeed) :
    0 ≤ (g.updateSpeed densities hour r).speed ∧
      (g.updateSpeed densities hour r).speed ≤ g.maxSpeed := by
  obtain ⟨x, hx, hs⟩ := updateSpeed_speed densities hour r g
  have hk : (0 : ℚ) ≤ ((jsRound x : ℤ) : ℚ) := by
    exact_mod_cast jsRound_nonneg hx
  rw [hs]
  split
  · exact ⟨le_min (mul_nonneg (le_min hk h) (by norm_num)) h, min_le_right _ _⟩
  · exact ⟨le_min hk h, min_le_right _ _⟩

theorem updateSpeed_speed_int (densities : Direction → ℚ) (hour : ℕ) (r : ℚ)
    (g : VehicleGroup) (m : ℤ) (hm : g.maxSpeed = (m : ℚ)) :
    isInt (g.updateSpeed densities hour r).speed := by
  obtain ⟨x, _, hs⟩ := updateSpeed_speed densities hour r g
  rw [hs, hm]
  split
  · exact ⟨min (min (jsRound x) m * 2) m, by push_cast; ring⟩
  · exact ⟨min (jsRound x) m, by push_cast; ring⟩

theorem isInt_of_den (q : ℚ) (h : q.den = 1) : isInt q :=
  ⟨q.num, ((Rat.den_eq_one_iff q).mp h).symm⟩

theorem update_frozen (densities : Direction → ℚ) (hour : ℕ) (r dt : ℚ)
    (g : VehicleGroup) (h1 : g.hasReached = true) (h2 : g.isSecondGroup = false) :
    g.update densities hour r dt = g := by
  unfold VehicleGroup.update
  rw [if_pos (by simp [h1, h2])]

theorem update_hasReached_mono (densities : Direction → ℚ) (hour : ℕ) (r dt : ℚ)
    (g : VehicleGroup) (h : g.hasReached = true) :
    (g.update densities hour r dt).hasReached = true := by
  unfold VehicleGroup.update
  dsimp only
  split
  · exact h
  · split
    · rfl
    · exact h

theorem update_dist_mono (densities : Direction → ℚ) (hour : ℕ) (r dt : ℚ)
    (g : VehicleGroup) (h0 : 0 ≤ g.maxSpeed) (hdt : 0 ≤ dt) :
    g.distanceTraveled ≤ (g.update densities hour r dt).distanceTraveled := by
  have hsp := (updateSpeed_speed_bounds densities hour r g h0).1
  have hq : 0 ≤ (g.updateSpeed densities hour r).speed / 3600 * dt :=
    mul_nonneg (div_nonneg hsp (by norm_num)) hdt
  unfold VehicleGroup.update
  dsimp only
  split
  · exact le_refl _
  · split
    · exact le_add_of_nonneg_right hq
    · exact le_add_of_nonneg_right hq

theorem update_speedInv (densities : Direction → ℚ) (hour : ℕ) (r dt : ℚ)
    (g : VehicleGroup) (hm : isInt g.maxSpeed) (h0 : 0 ≤ g.maxSpeed)
    (hinv : speedInv g) :
    speedInv (g.update densities hour r dt) ∧
      (g.update densities hour r dt).maxSpeed = g.maxSpeed := by
  obtain ⟨m, hm⟩ := hm
  have hbd := updateSpeed_speed_bounds densities hour r g h0
  have hin := updateSpeed_speed_int densities hour r g m hm
  unfold VehicleGroup.update
  dsimp only
  split
  · exact ⟨hinv, rfl⟩
  · split
    · exact ⟨⟨hin, hbd.1, hbd.2⟩, rfl⟩
    · exact ⟨⟨hin, hbd.1, hbd.2⟩, rfl⟩

theorem getKey_getStatus (s : SimState) (d : Direction) :
    getKey (SimState.getStatus s) d.name = some (dirInfo s d) := by
  cases d <;> rfl

/-! ## Claim theorems -/

/-- C1: every getTrafficStatus call performs exactly one simulation update with
deltaTime 1 before returning; the snapshot is computed by the pure getStatus
from the post-update state, so after n calls the state is the n-fold update. -/
theorem claim_C1 :
    ∀ (env : Env) (s : SimState),
      (getTrafficStatus env s).2 = s.update env 1 ∧
      (getTrafficStatus env s).1 = SimState.getStatus ((getTrafficStatus env s).2) ∧
      ∀ n : ℕ, callsState env n s = (fun t => SimState.update env 1 t)^[n] s := by
  intro env s
  refine ⟨rfl, rfl, ?_⟩
  intro n
  induction n generalizing s with
  | zero => rfl
  | succ n ih =>
      show callsState env n (getTrafficStatus env s).2 = _
      rw [ih, Function.iterate_succ_apply]
      rfl

/-- C7: every snapshot returned by getTrafficStatus has exactly the four keys
North, South, East, West, and each direction entry carries the statuses of the
first and the second group plus maxSpeed, density and the volume counts. -/
theorem claim_C7 :
    ∀ (env : Env) (s : SimState),
      ((getTrafficStatus env s).1.map Prod.fst = ["North", "South", "East", "West"]) ∧
      ∀ d : Direction,
        getKey (getTrafficStatus env s).1 d.name =
          some { firstGroup := (((getTrafficStatus env s).2).firstGroups d).getStatus
                 secondGroup := (((getTrafficStatus env s).2).secondGroups d).getStatus
                 maxSpeed := INITIAL_SPEEDS d
                 density := jsOrZero (((getTrafficStatus env s).2).densities d)
                 volumes := ((getTrafficStatus env s).2).groupVolumes d } :=
  fun _env _s => ⟨rfl, fun d => getKey_getStatus _ d⟩

/-- C8: vehicle-group speeds stay integers between 0 and the group maxSpeed:
the invariant holds for freshly constructed groups and is preserved by every
update, including the doubled-speed branch of a reached second group. -/
theorem claim_C8 :
    (∀ (d : Direction) (b : Bool),
        speedInv (VehicleGroup.init d b) ∧
        isInt (VehicleGroup.init d b).maxSpeed ∧ 0 ≤ (VehicleGroup.init d b).maxSpeed) ∧
    (∀ (densities : Direction → ℚ) (hour : ℕ) (r dt : ℚ) (g : VehicleGroup),
        isInt g.maxSpeed → 0 ≤ g.maxSpeed → speedInv g →
        speedInv (g.update densities hour r dt) ∧
        (g.update densities hour r dt).maxSpeed = g.maxSpeed) := by
  constructor
  · intro d b
    cases d <;> cases b <;>
      exact ⟨⟨isInt_of_den _ (by decide), by decide, by decide⟩,
        isInt_of_den _ (by decide), by decide⟩
  · intro densities hour r dt g hm h0 hinv
    exact update_speedInv densities hour r dt g hm h0 hinv

/-- C9: hasReached is monotone under update, distanceTraveled never decreases,
and a reached first group is frozen: update returns it unchanged. -/
theorem claim_C9 :
    ∀ (densities : Direction → ℚ) (hour : ℕ) (r dt : ℚ) (g : VehicleGroup),
      0 ≤ g.maxSpeed → 0 ≤ dt →
      (g.hasReached = true → (g.update densities hour r dt).hasReached = true) ∧
      g.distanceTraveled ≤ (g.update densities hour r dt).distanceTraveled ∧
      (g.hasReached = true → g.isSecondGroup = false →
        g.update densities hour r dt = g) := by
  intro densities hour r dt g h0 hdt
  exact ⟨fun hr => update_hasReached_mono densities hour r dt g hr,
    update_dist_mono densities hour r dt g h0 hdt,
    fun h1 h2 => update_frozen densities hour r dt g h1 h2⟩

/-- Witness for C8 at a concrete group and update. -/
theorem claim_C8_witness :
    isInt (VehicleGroup.init .North false).maxSpeed ∧
    0 ≤ (VehicleGroup.init .North false).maxSpeed ∧
    speedInv ((VehicleGroup.init .North false).update defaultDensities 12 0 1) := by
  have h := claim_C8
  exact ⟨(h.1 .North false).2.1, (h.1 .North false).2.2,
    (h.2 defaultDensities 12 0 1 (VehicleGroup.init .North false)
      (h.1 .North false).2.1 (h.1 .North false).2.2 (h.1 .North false).1).1⟩

/-- Witness for C9 at a concrete group and update. -/
theorem claim_C9_witness :
    0 ≤ (VehicleGroup.init .South true).maxSpeed ∧ (0 : ℚ) ≤ 1 ∧
    (VehicleGroup.init .South true).distanceTraveled ≤
      ((VehicleGroup.init .South true).update defaultDensities 12 0 1).distanceTraveled :=
  ⟨by decide, by norm_num,
    (claim_C9 defaultDensities 12 0 1 (VehicleGroup.init .South true)
      (by decide) (by norm_num)).2.1⟩

/-! ## Association-list lemmas -/

theorem getKey_setKey_self {α : Type} (m : List (String × α)) (k : String) (v : α) :
    getKey (setKey m k v) k = some v := by
  induction m with
  | nil => simp [setKey, getKey]
  | cons p rest ih =>
      obtain ⟨k1, v1⟩ := p
      by_cases h : k1 = k
      · simp [setKey, getKey, h]
      · simp [setKey, getKey, h, ih]

theorem getKey_setKey_ne {α : Type} (m : List (String × α)) (k k2 : String) (v : α)
    (h : k2 ≠ k) : getKey (setKey m k v) k2 = getKey m k2 := by
  induction m with
  | nil => simp [setKey, getKey, Ne.symm h]
  | cons p rest ih =>
      obtain ⟨k1, v1⟩ := p
      by_cases h1 : k1 = k
      · simp [setKey, getKey, h1, Ne.symm h]
      · simp [setKey, getKey, h1, ih]

theorem setKey_append_of_getKey_none {α : Type} (m : List (String × α)) (k : String)
    (v : α) (h : getKey m k = none) : setKey m k v = m ++ [(k, v)] := by
  induction m with
  | nil => simp [setKey]
  | cons p rest ih =>
      obtain ⟨k1, v1⟩ := p
      by_cases h1 : k1 = k
      · simp [getKey, h1] at h
      · simp [getKey, h1] at h
        simp [setKey, h1, ih h]

theorem getKey_eraseKey_self {α : Type} (m : List (String × α)) (k : String) :
    getKey (eraseKey m k) k = none := by
  induction m with
  | nil => simp [eraseKey, getKey]
  | cons p rest ih =>
      obtain ⟨k1, v1⟩ := p
      by_cases h1 : k1 = k
      · simpa [eraseKey, h1] using ih
      · simpa [eraseKey, getKey, h1] using ih

theorem getKey_eraseKey_ne {α : Type} (m : List (String × α)) (k k2 : String)
    (h : k2 ≠ k) : getKey (eraseKey m k) k2 = getKey m k2 := by
  induction m with
  | nil => simp [eraseKey, getKey]
  | cons p rest ih =>
      obtain ⟨k1, v1⟩ := p
      by_cases h1 : k1 = k
      · simp [eraseKey, getKey, h1, Ne.symm h, ih]
      · simp [eraseKey, getKey, h1, ih]

theorem eraseKey_of_getKey_none {α : Type} (m : List (String × α)) (k : String)
    (h : getKey m k = none) : eraseKey m k = m := by
  induction m with
  | nil => simp [eraseKey]
  | cons p rest ih =>
      obtain ⟨k1, v1⟩ := p
      by_cases h1 : k1 = k
      · simp [getKey, h1] at h
      · simp [getKey, h1] at h
        simp [eraseKey, h1, ih h]

/-! ## Backend claims -/

/-- C10: a message, emergency or location event whose userId is not registered
changes nothing at all and broadcasts nothing. -/
theorem claim_C10 :
    ∀ (o : Oracle) (s : ServerState) (conn userId content : String)
      (mt : Option String) (lat lng : ℚ) (acc : Option ℚ),
      getKey s.users userId = none →
      step o s (.chatMessage conn userId content mt) = (s, []) ∧
      step o s (.emergency conn userId) = (s, []) ∧
      step o s (.locationUpdate conn userId lat lng acc) = (s, []) := by
  intro o s conn userId content mt lat lng acc h
  refine ⟨?_, ?_, ?_⟩ <;> simp [step, h]

/-- Witness for C10 on the freshly started server. -/
theorem claim_C10_witness :
    getKey (mkInitialServer env0).users "ghost" = none ∧
    step oracle0 (mkInitialServer env0) (.chatMessage "c9" "ghost" "hello" none) =
      (mkInitialServer env0, []) ∧
    step oracle0 (mkInitialServer env0) (.emergency "c9" "ghost") =
      (mkInitialServer env0, []) ∧
    step oracle0 (mkInitialServer env0) (.locationUpdate "c9" "ghost" 1 2 none) =
      (mkInitialServer env0, []) := by
  have h : getKey (mkInitialServer env0).users "ghost" = none := rfl
  have hc := claim_C10 oracle0 (mkInitialServer env0) "c9" "ghost" "hello" none 1 2 none h
  exact ⟨h, hc.1, hc.2.1, hc.2.2⟩

/-- C5: the users registry is touched only by connect, location and close
events; connect inserts a fresh entry with the given name and no location, a
location event rewrites exactly that user to carry the new location, close
removes exactly the entry assigned to the closing connection, and chat,
emergency, open and tick events leave the registry unchanged. -/
theorem claim_C5 :
    ∀ (o : Oracle) (s : ServerState),
      (∀ conn userName, getKey s.users o.newId = none →
        (step o s (.connect conn userName)).1.users =
          s.users ++ [(o.newId, { ws := conn, userName := userName, location := none })]) ∧
      (∀ conn userId lat lng acc sender, getKey s.users userId = some sender →
        getKey ((step o s (.locationUpdate conn userId lat lng acc)).1.users) userId =
          some ({ sender with
                    location := some ({ latitude := lat, longitude := lng,
                                        accuracy := acc.getD 0,
                                        timestamp := o.now } : LocationRec) } : UserInfo) ∧
        (∀ k, k ≠ userId →
          getKey ((step o s (.locationUpdate conn userId lat lng acc)).1.users) k =
            getKey s.users k)) ∧
      (∀ conn uid, getKey s.assigned conn = some uid →
        (step o s (.closeConn conn)).1.users = eraseKey s.users uid ∧
        getKey (eraseKey s.users uid) uid = none ∧
        (∀ k, k ≠ uid → getKey (eraseKey s.users uid) k = getKey s.users k)) ∧
      (∀ conn userId content mt,
        (step o s (.chatMessage conn userId content mt)).1.users = s.users) ∧
      (∀ conn userId, (step o s (.emergency conn userId)).1.users = s.users) ∧
      (∀ conn, (step o s (.openConn conn)).1.users = s.users ∧
        (step o s (.tick conn)).1.users = s.users) := by
  intro o s
  refine ⟨?_, ?_, ?_, ?_, ?_, ?_⟩
  · intro conn userName h
    simp [step, setKey_append_of_getKey_none _ _ _ h]
  · intro conn userId lat lng acc sender h
    refine ⟨?_, ?_⟩
    · simp [step, h, getKey_setKey_self]
    · intro k hk
      simp [step, h, getKey_setKey_ne _ _ _ _ hk]
  · intro conn uid h
    refine ⟨?_, getKey_eraseKey_self _ _, fun k hk => getKey_eraseKey_ne _ _ _ hk⟩
    by_cases hu : (getKey s.users uid).isSome
    · simp [step, h, hu]
    · rw [Option.not_isSome_iff_eq_none] at hu
      simp [step, h, hu, eraseKey_of_getKey_none _ _ hu]
  · intro conn userId content mt
    cases hk : getKey s.users userId <;> simp [step, hk]
  · intro conn userId
    cases hk : getKey s.users userId <;> simp [step, hk]
  · intro conn
    exact ⟨rfl, rfl⟩

/-- Witness for C5 at a concrete registry. -/
theorem claim_C5_witness :
    getKey halfRegisteredState.users oracle0.newId = none ∧
    (step oracle0 halfRegisteredState (.connect "c2" "bob")).1.users =
      halfRegisteredState.users ++
        [("m1", { ws := "c2", userName := "bob", location := none })] ∧
    getKey halfRegisteredState.users "u1" =
      some { ws := "c1", userName := "alice", location := none } ∧
    getKey ((step oracle0 halfRegisteredState
        (.locationUpdate "c1" "u1" 1 2 none)).1.users) "u1" =
      some ({ ws := "c1", userName := "alice",
              location := some ({ latitude := 1, longitude := 2,
                                  accuracy := 0, timestamp := 0 } : LocationRec) } : UserInfo) := by
  have h := claim_C5 oracle0 halfRegisteredState
  refine ⟨rfl, h.1 "c2" "bob" rfl, rfl, ?_⟩
  exact (h.2.1 "c1" "u1" 1 2 none
    { ws := "c1", userName := "alice", location := none } rfl).1

theorem update_densities (env : Env) (dt : ℚ) (s : SimState) :
    (s.update env dt).densities = s.densities := rfl

theorem getTrafficStatus_snd (env : Env) (s : SimState) :
    (getTrafficStatus env s).2 = s.update env 1 := rfl

theorem parseDirection_mem (s : String) :
    (parseDirection s).isSome = true ↔ s ∈ ["North", "South", "East", "West"] := by
  unfold parseDirection
  split_ifs with h1 h2 h3 h4 <;> simp [*]

/-- C2 corrected: POST /api/traffic/:direction/maxSpeed rewrites only the cached
trafficData entry; the simulation state is untouched and every snapshot rebuilt
by getTrafficStatus reports the fixed INITIAL_SPEEDS value again. -/
theorem claim_C2 :
    ∀ (s : ServerState) (dirStr : String) (v : ℚ),
      (postMaxSpeed s dirStr v).1.sim = s.sim ∧
      (∀ info, getKey s.trafficData dirStr = some info →
        (postMaxSpeed s dirStr v).2.2 = true ∧
        getKey (postMaxSpeed s dirStr v).1.trafficData dirStr =
          some { info with maxSpeed := v }) ∧
      (getKey s.trafficData dirStr = none →
        postMaxSpeed s dirStr v = (s, 400, false)) ∧
      (∀ (env : Env) (sim : SimState) (d : Direction),
        (getKey (getTrafficStatus env sim).1 d.name).map DirStatus.maxSpeed =
          some (INITIAL_SPEEDS d)) := by
  intro s dirStr v
  refine ⟨?_, ?_, ?_, ?_⟩
  · cases hk : getKey s.trafficData dirStr <;> simp [postMaxSpeed, hk]
  · intro info h
    simp [postMaxSpeed, h, getKey_setKey_self]
  · intro h
    simp [postMaxSpeed, h]
  · intro env sim d
    have h1 : (getTrafficStatus env sim).1 =
        SimState.getStatus ((getTrafficStatus env sim).2) := rfl
    rw [h1, getKey_getStatus]
    rfl

/-- Counterexample for C2 as stated: after a successful maxSpeed update to 100
for North, the very next snapshot built by the simulation reports 60 again. -/
theorem claim_C2_cex :
    (postMaxSpeed (mkInitialServer env0) "North" 100).2.2 = true ∧
    (getKey (getTrafficStatus env0
        ((postMaxSpeed (mkInitialServer env0) "North" 100).1.sim)).1
        Direction.North.name).map DirStatus.maxSpeed = some 60 ∧
    (getKey (getTrafficStatus env0
        ((postMaxSpeed (mkInitialServer env0) "North" 100).1.sim)).1
        Direction.North.name).map DirStatus.maxSpeed ≠ some 100 := by
  have h1 : (getTrafficStatus env0
      ((postMaxSpeed (mkInitialServer env0) "North" 100).1.sim)).1 =
      SimState.getStatus ((getTrafficStatus env0
        ((postMaxSpeed (mkInitialServer env0) "North" 100).1.sim)).2) := rfl
  refine ⟨rfl, ?_, ?_⟩ <;> rw [h1, getKey_getStatus] <;> simp [dirInfo, INITIAL_SPEEDS]

/-- Witness for C2 (amended) at a concrete cached entry. -/
theorem claim_C2_witness :
    getKey smallServer.trafficData "North" = some dirStatus0 ∧
    (postMaxSpeed smallServer "North" 100).2.2 = true ∧
    getKey (postMaxSpeed smallServer "North" 100).1.trafficData "North" =
      some { dirStatus0 with maxSpeed := 100 } ∧
    (postMaxSpeed smallServer "North" 100).1.sim = smallServer.sim := by
  have h := claim_C2 smallServer "North" 100
  exact ⟨rfl, (h.2.1 dirStatus0 rfl).1, (h.2.1 dirStatus0 rfl).2, h.1⟩

/-- C3 corrected: POST /api/density/:direction succeeds for the four direction
keys — storing max(0, the numeric density), reporting 200/success and
refreshing the traffic data — and also, through the prototype chain of the
DENSITIES object literal, for inherited Object.prototype names such as
toString, where it responds 200 while every per-direction density stays
unchanged; only a name that is neither an own key nor an inherited property is
rejected with status 400 and no change at all. -/
theorem claim_C3 :
    ∀ (env : Env) (s : ServerState) (dirStr : String) (q : ℚ),
      ((postDensity env s dirStr (some q)).2.2 = true ↔
        (dirStr ∈ ["North", "South", "East", "West"] ∨
         getKey s.sim.extraProps dirStr ≠ none ∨ dirStr ∈ objectPrototypeProps)) ∧
      (∀ d : Direction, parseDirection dirStr = some d →
        (postDensity env s dirStr (some q)).2.1 = 200 ∧
        (postDensity env s dirStr (some q)).2.2 = true ∧
        (postDensity env s dirStr (some q)).1.sim.densities d = max 0 q ∧
        (∀ d2 : Direction, d2 ≠ d →
          (postDensity env s dirStr (some q)).1.sim.densities d2 = s.sim.densities d2) ∧
        (postDensity env s dirStr (some q)).1.trafficData =
          (getTrafficStatus env (setDensity s.sim dirStr (some q)).1).1) ∧
      (parseDirection dirStr = none → dirStr ∈ objectPrototypeProps →
        (postDensity env s dirStr (some q)).2.1 = 200 ∧
        (postDensity env s dirStr (some q)).2.2 = true ∧
        (∀ d : Direction,
          (postDensity env s dirStr (some q)).1.sim.densities d = s.sim.densities d)) ∧
      (parseDirection dirStr = none → getKey s.sim.extraProps dirStr = none →
        dirStr ∉ objectPrototypeProps →
        postDensity env s dirStr (some q) = (s, 400, false)) := by
  intro env s dirStr q
  refine ⟨?_, ?_, ?_, ?_⟩
  · have hm := parseDirection_mem dirStr
    cases hp : parseDirection dirStr
    · rw [hp] at hm
      simp at hm
      by_cases hg : getKey s.sim.extraProps dirStr ≠ none ∨ dirStr ∈ objectPrototypeProps
      · simp [postDensity, setDensity, hp, hg, hm]
      · simp [postDensity, setDensity, hp, hg, hm]
    · rw [hp] at hm
      simp at hm
      simp [postDensity, setDensity, hp, hm]
  · intro d hd
    refine ⟨?_, ?_, ?_, ?_, ?_⟩
    · simp [postDensity, setDensity, hd]
    · simp [postDensity, setDensity, hd]
    · simp [postDensity, setDensity, hd, getTrafficStatus_snd, update_densities,
        Function.update_same]
    · intro d2 hd2
      simp [postDensity, setDensity, hd, getTrafficStatus_snd, update_densities,
        Function.update_noteq hd2]
    · simp [postDensity, setDensity, hd]
  · intro hp hpp
    have hg : getKey s.sim.extraProps dirStr ≠ none ∨ dirStr ∈ objectPrototypeProps :=
      Or.inr hpp
    refine ⟨?_, ?_, ?_⟩
    · simp [postDensity, setDensity, hp, hg]
    · simp [postDensity, setDensity, hp, hg]
    · intro d
      by_cases hpr : dirStr = "__proto__"
      · subst hpr
        simp [postDensity, setDensity, hp, hg, getTrafficStatus_snd, update_densities]
      · simp [postDensity, setDensity, hp, hg, hpr, getTrafficStatus_snd,
          update_densities]
  · intro hp hx hpp
    simp [postDensity, setDensity, hp, hx, hpp]

/-- Counterexample for C3 as stated: toString is not one of the four
directions, yet POST /api/density/toString succeeds with 200, because the guard
DENSITIES[direction] !== undefined finds the inherited Object.prototype
property toString. -/
theorem claim_C3_cex :
    ("toString" ∉ ["North", "South", "East", "West"]) ∧
    (postDensity env0 smallServer "toString" (some 5)).2.2 = true ∧
    (postDensity env0 smallServer "toString" (some 5)).2.1 = 200 ∧
    (postDensity env0 smallServer "toString" (some 5)).2.1 ≠ 400 := by
  refine ⟨by decide, rfl, rfl, by decide⟩

/-- Witness for C3 (amended): East stores the clamped value, toString succeeds
through the prototype chain without touching any density, Up is rejected with
400 and no change. -/
theorem claim_C3_witness :
    parseDirection "East" = some .East ∧
    (postDensity env0 smallServer "East" (some (-7))).2.1 = 200 ∧
    (postDensity env0 smallServer "East" (some (-7))).2.2 = true ∧
    (postDensity env0 smallServer "East" (some (-7))).1.sim.densities .East =
      max 0 (-7) ∧
    parseDirection "toString" = none ∧
    "toString" ∈ objectPrototypeProps ∧
    (postDensity env0 smallServer "toString" (some 5)).2.1 = 200 ∧
    (postDensity env0 smallServer "toString" (some 5)).1.sim.densities .North =
      smallServer.sim.densities .North ∧
    parseDirection "Up" = none ∧
    getKey smallServer.sim.extraProps "Up" = none ∧
    "Up" ∉ objectPrototypeProps ∧
    postDensity env0 smallServer "Up" (some 5) = (smallServer, 400, false) := by
  have h := claim_C3 env0 smallServer "East" (-7)
  have ht := claim_C3 env0 smallServer "toString" 5
  have h2 := claim_C3 env0 smallServer "Up" 5
  have he := h.2.1 .East rfl
  have hts := ht.2.2.1 rfl (by decide)
  exact ⟨rfl, he.1, he.2.1, he.2.2.1, rfl, by decide, hts.1, hts.2.2 .North,
    rfl, rfl, by decide, h2.2.2.2 rfl rfl (by decide)⟩

/-- C4 corrected: the user-list, location-list, chat-message and emergency
notifications go to exactly the connections of the registered users (the users
map), not to every open connection; the periodic traffic-update reaches each
open connection through its own per-connection timer, and a newly opened
connection also gets one initial traffic snapshot. -/
theorem claim_C4 :
    ∀ (o : Oracle) (s : ServerState),
      (∀ conn userId content mt sender, getKey s.users userId = some sender →
        recipients (step o s (.chatMessage conn userId content mt)).2 =
          registeredConns s.users) ∧
      (∀ conn userId sender, getKey s.users userId = some sender →
        recipients (step o s (.emergency conn userId)).2 = registeredConns s.users) ∧
      (∀ conn userId lat lng acc sender, getKey s.users userId = some sender →
        recipients (step o s (.locationUpdate conn userId lat lng acc)).2 =
          registeredConns (setKey s.users userId
            ({ sender with
                location := some ({ latitude := lat, longitude := lng,
                                    accuracy := acc.getD 0,
                                    timestamp := o.now } : LocationRec) } : UserInfo))) ∧
      (∀ conn userName,
        recipients (step o s (.connect conn userName)).2 =
          conn :: (registeredConns (setKey s.users o.newId
            { ws := conn, userName := userName, location := none }) ++
            registeredConns (setKey s.users o.newId
              { ws := conn, userName := userName, location := none }))) ∧
      (∀ conn uid, getKey s.assigned conn = some uid →
        (getKey s.users uid).isSome = true →
        recipients (step o s (.closeConn conn)).2 =
          registeredConns (eraseKey s.users uid)) ∧
      (∀ conn,
        recipients (step o s (.tick conn)).2 = [conn] ∧
        recipients (step o s (.openConn conn)).2 = [conn] ∧
        (step o s (.openConn conn)).1.timers = s.timers ++ [conn]) := by
  intro o s
  refine ⟨?_, ?_, ?_, ?_, ?_, ?_⟩
  · intro conn userId content mt sender h
    simp [step, h, recipients, registeredConns, List.map_map, Function.comp]
  · intro conn userId sender h
    simp [step, h, recipients, registeredConns, List.map_map, Function.comp]
  · intro conn userId lat lng acc sender h
    simp [step, h, recipients, registeredConns, broadcastLocations,
      List.map_map, Function.comp]
  · intro conn userName
    simp [step, recipients, registeredConns, broadcastUserList, broadcastLocations,
      List.map_map, List.map_append, Function.comp]
    rfl
  · intro conn uid h hu
    simp [step, h, hu, recipients, registeredConns, broadcastUserList,
      List.map_map, Function.comp]
  · intro conn
    exact ⟨rfl, rfl, rfl⟩

/-- Counterexample for C4 as stated: connection c2 is open but unregistered, so
it receives nothing when a chat message is broadcast. -/
theorem claim_C4_cex :
    "c2" ∈ halfRegisteredState.conns ∧
    recipients (step oracle0 halfRegisteredState
      (.chatMessage "c1" "u1" "hi" none)).2 = ["c1"] ∧
    "c2" ∉ recipients (step oracle0 halfRegisteredState
      (.chatMessage "c1" "u1" "hi" none)).2 := by
  refine ⟨by simp [halfRegisteredState], rfl, ?_⟩
  intro hmem
  rw [show recipients (step oracle0 halfRegisteredState
    (.chatMessage "c1" "u1" "hi" none)).2 = ["c1"] from rfl] at hmem
  simp at hmem

/-- Witness for C4 (amended) at a concrete registry. -/
theorem claim_C4_witness :
    getKey halfRegisteredState.users "u1" =
      some { ws := "c1", userName := "alice", location := none } ∧
    recipients (step oracle0 halfRegisteredState
      (.chatMessage "c1" "u1" "hi" none)).2 =
        registeredConns halfRegisteredState.users := by
  have h := claim_C4 oracle0 halfRegisteredState
  exact ⟨rfl, h.1 "c1" "u1" "hi" none _ rfl⟩

/-! ## String containment lemmas for the assistant reply -/

theorem strData_append (a b : String) : (a ++ b).data = a.data ++ b.data := rfl

theorem strContains_appendL (a b x : String) (h : strContains b x) :
    strContains (a ++ b) x := by
  obtain ⟨pre, post, hp⟩ := h
  exact ⟨a.data ++ pre, post, by rw [strData_append, hp]; simp [List.append_assoc]⟩

theorem strContains_appendR (a b x : String) (h : strContains a x) :
    strContains (a ++ b) x := by
  obtain ⟨pre, post, hp⟩ := h
  exact ⟨pre, post ++ b.data, by rw [strData_append, hp]; simp [List.append_assoc]⟩

theorem strContains_self (x : String) : strContains x x := ⟨[], [], by simp⟩

theorem joinSep_contains (sep : String) (l : List String) (x : String) (h : x ∈ l) :
    strContains (joinSep sep l) x := by
  induction l with
  | nil => cases h
  | cons a rest ih =>
      cases rest with
      | nil =>
          rcases List.mem_singleton.mp h with rfl
          exact strContains_self x
      | cons b rest2 =>
          rcases List.mem_cons.mp h with rfl | h2
          · exact strContains_appendR _ _ _ (strContains_appendR _ _ _ (strContains_self x))
          · exact strContains_appendL _ _ _ (ih h2)

theorem trafficSummary_contains (st : Status) (x : String)
    (h : x ∈ assistantLines st) : strContains (trafficSummary st) x := by
  have hj := joinSep_contains "\n" (assistantLines st) x h
  unfold trafficSummary
  dsimp only
  split
  · exact strContains_appendR _ _ _ (strContains_appendR _ _ _ (strContains_appendL _ _ _ hj))
  · exact strContains_appendL _ _ _ hj

theorem mem_assistantLines (s : SimState) (d : Direction) :
    dirLine d.name (dirInfo s d) ∈ assistantLines (SimState.getStatus s) := by
  have hd : d ∈ Direction.all := by cases d <;> simp [Direction.all]
  exact List.mem_map.mpr ⟨(d.name, dirInfo s d), List.mem_map.mpr ⟨d, hd, rfl⟩, rfl⟩

theorem buildReply_contains (prompt : Option String) (st : Status) (x : String)
    (h : x ∈ assistantLines st) : strContains (buildReply prompt st) x := by
  have hts := trafficSummary_contains st x h
  have hj := joinSep_contains "\n" (assistantLines st) x h
  unfold buildReply
  dsimp only
  split
  · exact hts
  · split
    · exact strContains_appendL _ _ _ hts
    · split
      · exact strContains_appendR _ _ _ (strContains_appendR _ _ _ (strContains_appendL _ _ _ hj))
      · split
        · exact strContains_appendL _ _ _ hts
        · split
          · exact strContains_appendL _ _ _ hts
          · split
            · exact strContains_appendL _ _ _ hts
            · split
              · exact strContains_appendL _ _ _ hts
              · exact strContains_appendL _ _ _ hts

/-- C6: every assistant response is derived from a fresh snapshot: the reply
contains, for each of the four directions, the summary line carrying that
direction density, total volume and both ETAs, and statusSnapshot is exactly
the snapshot the reply was built from. -/
theorem claim_C6 :
    ∀ (env : Env) (s : ServerState) (prompt : Option String),
      (postAssistant env s prompt).1.statusSnapshot = (getTrafficStatus env s.sim).1 ∧
      (postAssistant env s prompt).1.reply =
        buildReply prompt ((postAssistant env s prompt).1.statusSnapshot) ∧
      ((postAssistant env s prompt).1.statusSnapshot.map Prod.fst =
        ["North", "South", "East", "West"]) ∧
      ∀ d : Direction, ∃ info : DirStatus,
        getKey ((postAssistant env s prompt).1.statusSnapshot) d.name = some info ∧
        strContains ((postAssistant env s prompt).1.reply) (dirLine d.name info) := by
  intro env s prompt
  refine ⟨rfl, rfl, rfl, ?_⟩
  intro d
  refine ⟨dirInfo ((getTrafficStatus env s.sim).2) d, getKey_getStatus _ d, ?_⟩
  exact buildReply_contains prompt _ _ (mem_assistantLines ((getTrafficStatus env s.sim).2) d)

end

end Traffic

